import Mathlib

/-!
# Query Submitter (`main.js`)

A shallow embedding of the page script `main.js`: the validity check
`updateButtonState`, the submission routine `sendQuery`, and the three event
listeners and the start-up call that the script installs.

JavaScript strings are sequences of UTF-16 code units; they are modelled as
lists of natural numbers (one number per code unit).  The effects the script has
on its environment (`crypto.randomUUID`, `window.open`, `fetch`) are recorded,
oldest first, in an explicit trace carried by the state.
-/

set_option maxRecDepth 100000

namespace QuerySubmitter

/-! ## Strings -/

/-- A JavaScript string: its UTF-16 code units, in order. -/
abbrev JSString := List Nat

/-- UTF-16 encoding of one Unicode scalar value. -/
def utf16Char (c : Char) : List Nat :=
  if c.toNat < 65536 then [c.toNat]
  else [55296 + (c.toNat - 65536) / 1024, 56320 + (c.toNat - 65536) % 1024]

/-- The JavaScript string denoted by a string literal of the source text. -/
def lit (s : String) : JSString :=
  s.data.flatMap utf16Char

/-- ECMAScript `WhiteSpace` and `LineTerminator` code points, the ones that
`String.prototype.trim` strips: TAB, LF, VT, FF, CR, SP, NBSP, the other
`Space_Separator` characters, LS, PS and ZWNBSP.  All of them are single code
units. -/
def isWhiteSpaceOrLineTerminator (c : Nat) : Bool :=
  c == 9 || c == 10 || c == 11 || c == 12 || c == 13 || c == 32 || c == 160 ||
  c == 5760 || (8192 ≤ c && c ≤ 8202) || c == 8232 || c == 8233 || c == 8239 ||
  c == 8287 || c == 12288 || c == 65279

/-- `String.prototype.trimStart`. -/
def trimStart (s : JSString) : JSString :=
  s.dropWhile isWhiteSpaceOrLineTerminator

/-- `String.prototype.trimEnd`. -/
def trimEnd (s : JSString) : JSString :=
  (s.reverse.dropWhile isWhiteSpaceOrLineTerminator).reverse

/-- `String.prototype.trim`: the string without its leading and trailing white
space and line terminators. -/
def trim (s : JSString) : JSString :=
  trimEnd (trimStart s)

/-! ## JSON values and `JSON.stringify` -/

/-- The JavaScript values that occur in the request object. -/
inductive JSValue where
  | str (s : JSString)
  | bool (b : Bool)
  | arr (items : List JSValue)
  | obj (props : List (JSString × JSValue))

/-- Lower-case hexadecimal digit (as a code unit) of a number below sixteen. -/
def hexDigit (n : Nat) : Nat :=
  if n < 10 then 48 + n else 87 + n

/-- ECMAScript `UnicodeEscape`: a backslash, `u`, and four hexadecimal digits. -/
def unicodeEscape (c : Nat) : JSString :=
  [92, 117, hexDigit (c / 4096 % 16), hexDigit (c / 256 % 16),
    hexDigit (c / 16 % 16), hexDigit (c % 16)]

/-- Is the code unit a leading surrogate? -/
def isLeadingSurrogate (c : Nat) : Bool := 55296 ≤ c && c ≤ 56319

/-- Is the code unit a trailing surrogate? -/
def isTrailingSurrogate (c : Nat) : Bool := 56320 ≤ c && c ≤ 57343

/-- The escaped form of one code unit that is not part of a surrogate pair, as
in ECMAScript `QuoteJSONString`. -/
def quoteUnit (c : Nat) : JSString :=
  if c = 8 then [92, 98]
  else if c = 9 then [92, 116]
  else if c = 10 then [92, 110]
  else if c = 12 then [92, 102]
  else if c = 13 then [92, 114]
  else if c = 34 then [92, 34]
  else if c = 92 then [92, 92]
  else if c < 32 || isLeadingSurrogate c || isTrailingSurrogate c then unicodeEscape c
  else [c]

/-- The body of ECMAScript `QuoteJSONString`, between the two quotation marks:
surrogate pairs are copied, every other code unit is escaped by `quoteUnit`. -/
def quoteUnits : JSString → JSString
  | [] => []
  | [c] => quoteUnit c
  | c :: d :: rest =>
    if isLeadingSurrogate c && isTrailingSurrogate d then c :: d :: quoteUnits rest
    else quoteUnit c ++ quoteUnits (d :: rest)

/-- ECMAScript `QuoteJSONString`. -/
def quoteJSONString (s : JSString) : JSString :=
  [34] ++ quoteUnits s ++ [34]

/-- Join already serialised parts with commas. -/
def commaJoin : List JSString → JSString
  | [] => []
  | [x] => x
  | x :: y :: rest => x ++ [44] ++ commaJoin (y :: rest)

mutual
/-- The function `JSON.stringify` (no replacer, no indentation) on the values
of `JSValue`. -/
def JSONstringify : JSValue → JSString
  | .str s => quoteJSONString s
  | .bool b => if b then lit "true" else lit "false"
  | .arr items => [91] ++ commaJoin (stringifyItems items) ++ [93]
  | .obj props => [123] ++ commaJoin (stringifyProps props) ++ [125]
/-- The serialised elements of an array. -/
def stringifyItems : List JSValue → List JSString
  | [] => []
  | v :: vs => JSONstringify v :: stringifyItems vs
/-- The serialised `key:value` members of an object. -/
def stringifyProps : List (JSString × JSValue) → List JSString
  | [] => []
  | (k, v) :: ps => (quoteJSONString k ++ [58] ++ JSONstringify v) :: stringifyProps ps
end

/-! ## Reading a JSON string literal back -/

/-- Value of a hexadecimal digit given as a code unit. -/
def unhexDigit (h : Nat) : Nat :=
  if h < 58 then h - 48 else h - 87

/-- The code unit named by the character after a backslash in a two-character
escape of a JSON string. -/
def unescapeUnit (e : Nat) : Nat :=
  if e = 98 then 8
  else if e = 116 then 9
  else if e = 110 then 10
  else if e = 102 then 12
  else if e = 114 then 13
  else e

/-- Reader of the inside of a JSON string literal: the string it denotes, up to
the closing quotation mark, and the text after that mark. -/
def readQuoted : JSString → Option (JSString × JSString)
  | [] => none
  | c :: r =>
    if c = 34 then some ([], r)
    else if c = 92 then
      match r with
      | [] => none
      | e :: r1 =>
        if e = 117 then
          match r1 with
          | h3 :: h2 :: h1 :: h0 :: r2 =>
            (readQuoted r2).map fun p =>
              ((4096 * unhexDigit h3 + 256 * unhexDigit h2 + 16 * unhexDigit h1 + unhexDigit h0)
                :: p.1, p.2)
          | _ => none
        else (readQuoted r1).map fun p => (unescapeUnit e :: p.1, p.2)
    else (readQuoted r).map fun p => (c :: p.1, p.2)

/-! ## The page and its environment -/

/-- The options object passed to `fetch`. -/
structure FetchInit where
  credentials : JSString
  headers : List (JSString × JSString)
  body : JSString
  method : JSString
  mode : JSString
  deriving DecidableEq

/-- An effect of the script on its environment. -/
inductive Effect where
  /-- A call of `crypto.randomUUID()` together with the identifier it returned. -/
  | randomUUID (result : JSString)
  /-- A call of `window.open(url, target)`. -/
  | windowOpen (url target : JSString)
  /-- A call of `fetch(url, init)`. -/
  | fetch (url : JSString) (init : FetchInit)
  deriving DecidableEq

/-- How a request started by `fetch` ends: with a response of any status and
any body (the promise returned by `fetch` is fulfilled), or with a network
failure (it is rejected). -/
inductive FetchOutcome where
  | response (status : Nat) (body : JSString)
  | networkError
  deriving DecidableEq

/-- State of the promise returned by one call of the async function
`sendQuery`. -/
inductive PromiseState where
  | pending
  | fulfilled
  | rejected
  deriving DecidableEq

/-- The state of the page: the two DOM properties the script reads and
writes, the trace of effects so far (oldest first), and the promise of every
call of `sendQuery` so far (in call order). -/
structure World where
  /-- The property `inputText.value`. -/
  value : JSString
  /-- The property `sendButton.disabled`. -/
  disabled : Bool
  trace : List Effect
  promises : List PromiseState
  deriving DecidableEq

/-- A `keydown` event: the two properties the listener reads and the
cancellation flag that `preventDefault` sets. -/
structure KeyboardEvent where
  key : JSString
  shiftKey : Bool
  defaultPrevented : Bool
  deriving DecidableEq

/-! ## The script -/

/-- The function `updateButtonState` of `main.js`. -/
def updateButtonState (w : World) : World :=
  let text := trim w.value
  { w with disabled := decide (text = []) }

/-- The constant `systemPrompt` of `sendQuery`. -/
def systemPrompt : JSString :=
  lit "このリポジトリ内のスピリチュアリズム関連文献を参照してユーザーの質問に回答してください"

/-- The constant `repoName` of `sendQuery`. -/
def repoName : JSString := lit "FoxRefire/spiritualism-md-scraped"

/-- The object literal `requestBody` of `sendQuery`, for the trimmed text and
the generated identifier. -/
def requestBody (text guid : JSString) : JSValue :=
  .obj [
    (lit "engine_id", .str (lit "multihop")),
    (lit "user_query",
      .str (lit "<relevant_context>" ++ systemPrompt ++ lit "</relevant_context>" ++ text)),
    (lit "keywords", .arr []),
    (lit "repo_names", .arr [.str repoName]),
    (lit "additional_context", .str (lit "")),
    (lit "query_id", .str (lit "_" ++ guid)),
    (lit "use_notes", .bool false),
    (lit "generate_summary", .bool false)]

/-- The function `sendQuery` of `main.js`, up to its `await`: everything the
call does before it returns its promise to the caller.  `guid` is the value
that `crypto.randomUUID()` returns if it is called. -/
def sendQuery (guid : JSString) (w : World) : World :=
  let text := trim w.value
  if text = [] then
    { w with promises := w.promises ++ [PromiseState.fulfilled] }
  else
    let body := requestBody text guid
    { w with
      trace := w.trace ++ [
        Effect.randomUUID guid,
        Effect.windowOpen (lit "https://deepwiki.com/search/_" ++ guid) (lit "_blank"),
        Effect.fetch (lit "https://corsproxy.io/?url=https://api.devin.ai/ada/query")
          { credentials := lit "omit",
            headers := [(lit "content-type", lit "application/json")],
            body := JSONstringify body,
            method := lit "POST",
            mode := lit "cors" }],
      promises := w.promises ++ [PromiseState.pending] }

/-- The rest of `sendQuery` after its `await`: nothing follows the awaited
`fetch`, so the call only completes; its promise is fulfilled when the request
got a response and rejected when it failed. -/
def resumeSendQuery (outcome : FetchOutcome) : PromiseState :=
  match outcome with
  | .response _ _ => PromiseState.fulfilled
  | .networkError => PromiseState.rejected

/-- The request of call number `call` of `sendQuery` ends with `outcome`: if
that call is suspended at its `await`, it resumes. -/
def settle (call : Nat) (outcome : FetchOutcome) (w : World) : World :=
  if w.promises.get? call = some PromiseState.pending then
    { w with promises := w.promises.set call (resumeSendQuery outcome) }
  else w

/-- The `click` listener of the button, which is `sendQuery` itself. -/
def onClick (guid : JSString) (w : World) : World :=
  sendQuery guid w

/-- The `keydown` listener of the text field. -/
def onKeydown (e : KeyboardEvent) (guid : JSString) (w : World) : KeyboardEvent × World :=
  if e.key = lit "Enter" && !e.shiftKey then
    ({ e with defaultPrevented := true }, sendQuery guid w)
  else (e, w)

/-- The `input` listener of the text field, which is `updateButtonState`. -/
def onInput (w : World) : World :=
  updateButtonState w

/-- The page right after the script has run at load: the text field holds
`prefilled`, the button has the `disabled` flag of the markup, nothing has
happened yet, and the last statement of the script has called
`updateButtonState`. -/
def load (prefilled : JSString) (markupDisabled : Bool) : World :=
  updateButtonState
    { value := prefilled, disabled := markupDisabled, trace := [], promises := [] }

/-- What can happen to the page after load. -/
inductive Event where
  /-- The user edits the text: the field now holds `newValue` and an `input`
  event is dispatched. -/
  | input (newValue : JSString)
  /-- A `click` event is dispatched on the button. -/
  | click (guid : JSString)
  /-- A `keydown` event is dispatched on the text field. -/
  | keydown (key : JSString) (shiftKey : Bool) (guid : JSString)
  /-- The request of a call of `sendQuery` ends. -/
  | settle (call : Nat) (outcome : FetchOutcome)
  deriving DecidableEq

/-- One event handled by the page. -/
def step (w : World) : Event → World
  | .input newValue => onInput { w with value := newValue }
  | .click guid => onClick guid w
  | .keydown key shiftKey guid =>
    (onKeydown { key := key, shiftKey := shiftKey, defaultPrevented := false } guid w).2
  | .settle call outcome => settle call outcome w

/-- A sequence of events handled in order. -/
def run (w : World) (events : List Event) : World :=
  events.foldl step w

/-- The number of `window.open` calls in a trace. -/
def countOpens (tr : List Effect) : Nat :=
  tr.countP fun e => match e with
    | .windowOpen _ _ => true
    | _ => false

/-- The number of `fetch` calls in a trace. -/
def countFetches (tr : List Effect) : Nat :=
  tr.countP fun e => match e with
    | .fetch _ _ => true
    | _ => false

/-- The number of `crypto.randomUUID` calls in a trace. -/
def countUUIDs (tr : List Effect) : Nat :=
  tr.countP fun e => match e with
    | .randomUUID _ => true
    | _ => false

/-- The value of an own property of an object. -/
def JSValue.getProp (key : JSString) : JSValue → Option JSValue
  | .obj props => (props.find? fun p => p.1 == key).map Prod.snd
  | _ => none

/-- The own property keys of an object, in order. -/
def JSValue.keys : JSValue → List JSString
  | .obj props => props.map Prod.fst
  | _ => []

/-- An identifier of the form `crypto.randomUUID()` returns. -/
def sampleGuid : JSString := lit "3b241101-e2bb-4255-8caf-4136c566a962"

/-- Another identifier of the form `crypto.randomUUID()` returns. -/
def otherGuid : JSString := lit "9f1c7a52-0d3e-4b6a-a1c8-5e2f7b9d4c10"

/-- The URL the script passes to `fetch`. -/
def queryEndpoint : JSString := lit "https://corsproxy.io/?url=https://api.devin.ai/ada/query"

/-! ## Basic facts -/

theorem dropWhile_all_of_dropWhile_reverse (p : Nat → Bool) (s : List Nat)
    (h : (s.dropWhile p).reverse.dropWhile p = []) : s.dropWhile p = [] := by
  rw [List.dropWhile_eq_nil_iff] at h
  cases hs : s.dropWhile p with
  | nil => rfl
  | cons a t =>
    exfalso
    have ha : p a = true := h a (by rw [hs]; simp)
    have hne : s.dropWhile p ≠ [] := by rw [hs]; simp
    have hhead := List.head_dropWhile_not p s hne
    simp [hs] at hhead
    rw [ha] at hhead
    exact Bool.noConfusion hhead

/-- The trimmed string is empty exactly when every code unit of the string is
white space or a line terminator. -/
theorem trim_eq_nil_iff (s : JSString) :
    trim s = [] ↔ ∀ c ∈ s, isWhiteSpaceOrLineTerminator c = true := by
  unfold trim trimEnd trimStart
  rw [List.reverse_eq_nil_iff]
  constructor
  · intro h
    exact List.dropWhile_eq_nil_iff.mp (dropWhile_all_of_dropWhile_reverse _ s h)
  · intro h
    rw [List.dropWhile_eq_nil_iff.mpr h]
    rfl

theorem trim_ne_nil_iff (s : JSString) :
    trim s ≠ [] ↔ ∃ c ∈ s, isWhiteSpaceOrLineTerminator c = false := by
  rw [Ne, trim_eq_nil_iff]
  push_neg
  simp

theorem sendQuery_of_empty (g : JSString) (w : World) (h : trim w.value = []) :
    sendQuery g w = { w with promises := w.promises ++ [PromiseState.fulfilled] } := by
  simp [sendQuery, h]

theorem sendQuery_of_nonempty (g : JSString) (w : World) (h : trim w.value ≠ []) :
    sendQuery g w =
      { w with
        trace := w.trace ++ [
          Effect.randomUUID g,
          Effect.windowOpen (lit "https://deepwiki.com/search/_" ++ g) (lit "_blank"),
          Effect.fetch (lit "https://corsproxy.io/?url=https://api.devin.ai/ada/query")
            { credentials := lit "omit",
              headers := [(lit "content-type", lit "application/json")],
              body := JSONstringify (requestBody (trim w.value) g),
              method := lit "POST",
              mode := lit "cors" }],
        promises := w.promises ++ [PromiseState.pending] } := by
  simp [sendQuery, h]

theorem sendQuery_value (g : JSString) (w : World) : (sendQuery g w).value = w.value := by
  by_cases h : trim w.value = []
  · rw [sendQuery_of_empty g w h]
  · rw [sendQuery_of_nonempty g w h]

theorem sendQuery_disabled (g : JSString) (w : World) :
    (sendQuery g w).disabled = w.disabled := by
  by_cases h : trim w.value = []
  · rw [sendQuery_of_empty g w h]
  · rw [sendQuery_of_nonempty g w h]

theorem settle_value (i : Nat) (o : FetchOutcome) (w : World) :
    (settle i o w).value = w.value := by
  unfold settle; split <;> rfl

theorem settle_disabled (i : Nat) (o : FetchOutcome) (w : World) :
    (settle i o w).disabled = w.disabled := by
  unfold settle; split <;> rfl

theorem settle_trace (i : Nat) (o : FetchOutcome) (w : World) :
    (settle i o w).trace = w.trace := by
  unfold settle; split <;> rfl

theorem sendQuery_getLast (g : JSString) (w : World) (h : trim w.value ≠ []) :
    (sendQuery g w).trace.getLast? = some (Effect.fetch queryEndpoint
      { credentials := lit "omit",
        headers := [(lit "content-type", lit "application/json")],
        body := JSONstringify (requestBody (trim w.value) g),
        method := lit "POST",
        mode := lit "cors" }) := by
  rw [sendQuery_of_nonempty g w h]
  simp [queryEndpoint]

theorem step_keydown_cases (w : World) (k : JSString) (sh : Bool) (g : JSString) :
    step w (Event.keydown k sh g) = sendQuery g w ∨ step w (Event.keydown k sh g) = w := by
  by_cases hk : k = lit "Enter" <;> cases sh <;> simp [step, onKeydown, hk]

/-- Every event keeps the button flag in step with the text. -/
theorem step_disabled_inv (w : World) (e : Event)
    (h : w.disabled = decide (trim w.value = [])) :
    (step w e).disabled = decide (trim (step w e).value = []) := by
  cases e with
  | input v => rfl
  | click g =>
    show (sendQuery g w).disabled = decide (trim (sendQuery g w).value = [])
    rw [sendQuery_disabled, sendQuery_value]; exact h
  | keydown k sh g =>
    rcases step_keydown_cases w k sh g with hk | hk
    · rw [hk, sendQuery_disabled, sendQuery_value]; exact h
    · rw [hk]; exact h
  | settle i o =>
    show (settle i o w).disabled = decide (trim (settle i o w).value = [])
    rw [settle_disabled, settle_value]; exact h

theorem run_disabled_inv (es : List Event) (w : World)
    (h : w.disabled = decide (trim w.value = [])) :
    (run w es).disabled = decide (trim (run w es).value = []) := by
  induction es generalizing w with
  | nil => exact h
  | cons e es ih => exact ih (step w e) (step_disabled_inv w e h)

/-- Events that are not submission attempts (requests ending, text edits) add
nothing to the trace. -/
theorem run_trace_of_no_submit (es : List Event) (w : World)
    (hes : ∀ e ∈ es, (∃ i o, e = Event.settle i o) ∨ (∃ v, e = Event.input v)) :
    (run w es).trace = w.trace := by
  induction es generalizing w with
  | nil => rfl
  | cons e es ih =>
    have hrest : ∀ x ∈ es, (∃ i o, x = Event.settle i o) ∨ (∃ v, x = Event.input v) :=
      fun x hx => hes x (List.mem_cons_of_mem e hx)
    have hstep : (step w e).trace = w.trace := by
      rcases hes e (List.mem_cons_self e es) with ⟨i, o, rfl⟩ | ⟨v, rfl⟩
      · exact settle_trace i o w
      · rfl
    show (run (step w e) es).trace = w.trace
    rw [ih (step w e) hrest, hstep]

theorem get?_append_length_add {α : Type} (l r : List α) (k : Nat) :
    (l ++ r).get? (l.length + k) = r.get? k := by
  induction l with
  | nil => simp
  | cons a l ih =>
    have hk : (a :: l).length + k = (l.length + k) + 1 := by simp; omega
    rw [hk]
    simpa using ih

theorem readQuoted_closing (r : JSString) : readQuoted (34 :: r) = some ([], r) := by
  rw [readQuoted.eq_def]
  simp

theorem readQuoted_plain (c : Nat) (r : JSString) (h34 : c ≠ 34) (h92 : c ≠ 92) :
    readQuoted (c :: r) = (readQuoted r).map fun p => (c :: p.1, p.2) := by
  rw [readQuoted.eq_def]
  simp [h34, h92]

theorem readQuoted_escape (e : Nat) (r : JSString) (he : e ≠ 117) :
    readQuoted (92 :: e :: r) = (readQuoted r).map fun p => (unescapeUnit e :: p.1, p.2) := by
  rw [readQuoted.eq_def]
  simp [he]

theorem readQuoted_unicode (h3 h2 h1 h0 : Nat) (r : JSString) :
    readQuoted (92 :: 117 :: h3 :: h2 :: h1 :: h0 :: r)
      = (readQuoted r).map fun p =>
          ((4096 * unhexDigit h3 + 256 * unhexDigit h2 + 16 * unhexDigit h1 + unhexDigit h0)
            :: p.1, p.2) := by
  rw [readQuoted.eq_def]
  simp

theorem unhexDigit_hexDigit (n : Nat) : unhexDigit (hexDigit n) = n := by
  unfold unhexDigit hexDigit
  split <;> split <;> omega

theorem readQuoted_unicodeEscape (c : Nat) (hc : c < 65536) (tl : JSString)
    (res : JSString × JSString) (h : readQuoted tl = some res) :
    readQuoted (unicodeEscape c ++ tl) = some (c :: res.1, res.2) := by
  have hsum : 4096 * (c / 4096 % 16) + 256 * (c / 256 % 16) + 16 * (c / 16 % 16) + c % 16 = c := by
    omega
  show readQuoted (92 :: 117 :: hexDigit (c / 4096 % 16) :: hexDigit (c / 256 % 16)
      :: hexDigit (c / 16 % 16) :: hexDigit (c % 16) :: tl) = some (c :: res.1, res.2)
  rw [readQuoted_unicode, h]
  simp [unhexDigit_hexDigit, hsum]

theorem readQuoted_quoteUnit (c : Nat) (tl : JSString) (res : JSString × JSString)
    (h : readQuoted tl = some res) :
    readQuoted (quoteUnit c ++ tl) = some (c :: res.1, res.2) := by
  have hesc : ∀ e v : Nat, e ≠ 117 → unescapeUnit e = v →
      readQuoted ([92, e] ++ tl) = some (v :: res.1, res.2) := by
    intro e v he hv
    show readQuoted (92 :: e :: tl) = some (v :: res.1, res.2)
    rw [readQuoted_escape e tl he, h, hv]
    rfl
  unfold quoteUnit
  split
  · next hc => subst hc; exact hesc 98 8 (by decide) rfl
  split
  · next hc => subst hc; exact hesc 116 9 (by decide) rfl
  split
  · next hc => subst hc; exact hesc 110 10 (by decide) rfl
  split
  · next hc => subst hc; exact hesc 102 12 (by decide) rfl
  split
  · next hc => subst hc; exact hesc 114 13 (by decide) rfl
  split
  · next hc => subst hc; exact hesc 34 34 (by decide) rfl
  split
  · next hc => subst hc; exact hesc 92 92 (by decide) rfl
  split
  · next hc =>
    apply readQuoted_unicodeEscape c _ tl res h
    simp [isLeadingSurrogate, isTrailingSurrogate] at hc
    omega
  · next h34 h92 _ =>
    show readQuoted (c :: tl) = some (c :: res.1, res.2)
    rw [readQuoted_plain c tl h34 h92, h]
    rfl

/-- Reading back what `QuoteJSONString` wrote gives the string and the text
after the closing quotation mark. -/
theorem readQuoted_quoteUnits (s : JSString) :
    ∀ r : JSString, readQuoted (quoteUnits s ++ 34 :: r) = some (s, r) := by
  induction s using quoteUnits.induct with
  | case1 => intro r; exact readQuoted_closing r
  | case2 c =>
    intro r
    exact readQuoted_quoteUnit c (34 :: r) ([], r) (readQuoted_closing r)
  | case3 c d rest hpair ih =>
    intro r
    have hq : quoteUnits (c :: d :: rest) = c :: d :: quoteUnits rest := by
      simp [quoteUnits, hpair]
    simp [isLeadingSurrogate, isTrailingSurrogate] at hpair
    rw [hq]
    show readQuoted (c :: d :: (quoteUnits rest ++ 34 :: r)) = some (c :: d :: rest, r)
    rw [readQuoted_plain c _ (by omega) (by omega), readQuoted_plain d _ (by omega) (by omega),
      ih r]
    rfl
  | case4 c d rest hpair ih =>
    intro r
    have hq : quoteUnits (c :: d :: rest) = quoteUnit c ++ quoteUnits (d :: rest) := by
      simp [quoteUnits, hpair]
    rw [hq, List.append_assoc]
    exact readQuoted_quoteUnit c _ (d :: rest, r) (ih r)

/-- The quoted form determines the string and what follows it. -/
theorem quoteUnits_append_inj (s t r u : JSString)
    (h : quoteUnits s ++ 34 :: r = quoteUnits t ++ 34 :: u) : s = t ∧ r = u := by
  have h1 := readQuoted_quoteUnits s r
  rw [h, readQuoted_quoteUnits t u] at h1
  simpa using h1.symm

/-- The serialised request object, spelled out: only the quoted `user_query`
and `query_id` vary. -/
theorem stringify_requestBody (t g : JSString) :
    JSONstringify (requestBody t g)
      = lit "\x7b\"engine_id\":\"multihop\",\"user_query\":"
        ++ quoteJSONString
            (lit "<relevant_context>このリポジトリ内のスピリチュアリズム関連文献を参照してユーザーの質問に回答してください</relevant_context>"
              ++ t)
        ++ lit ",\"keywords\":[],\"repo_names\":[\"FoxRefire/spiritualism-md-scraped\"],\"additional_context\":\"\",\"query_id\":"
        ++ quoteJSONString (lit "_" ++ g)
        ++ lit ",\"use_notes\":false,\"generate_summary\":false\x7d" := by
  simp only [requestBody, JSONstringify, stringifyProps, stringifyItems, commaJoin,
    quoteJSONString, List.append_assoc]
  rfl

/-- The serialised request object determines the trimmed text and the
identifier it was built from. -/
theorem stringify_requestBody_inj (t g t2 g2 : JSString)
    (h : JSONstringify (requestBody t g) = JSONstringify (requestBody t2 g2)) :
    t = t2 ∧ g = g2 := by
  rw [stringify_requestBody, stringify_requestBody] at h
  simp only [quoteJSONString, List.append_assoc, List.singleton_append] at h
  have h1 := List.append_cancel_left h
  have h2 := quoteUnits_append_inj _ _ _ _ (List.cons.inj h1).2
  have h3 := List.append_cancel_left h2.2
  have h4 := quoteUnits_append_inj _ _ _ _ (List.cons.inj h3).2
  exact ⟨List.append_cancel_left h2.1, List.append_cancel_left h4.1⟩

/-! ## The claims -/

/-- C1: for every string held by the text field (and whatever the button state
was), after `updateButtonState` the button is enabled (`disabled = false`) if and
only if the trimmed string is not empty, which is the case exactly when the
string has a code unit that is neither white space nor a line terminator; the
call changes nothing but the flag. -/
theorem C1_updateButtonState_enabled_iff (s : JSString) (d : Bool)
    (tr : List Effect) (ps : List PromiseState) :
    ((updateButtonState { value := s, disabled := d, trace := tr, promises := ps }).disabled
        = false ↔ trim s ≠ []) ∧
    (trim s ≠ [] ↔ ∃ c ∈ s, isWhiteSpaceOrLineTerminator c = false) ∧
    updateButtonState { value := s, disabled := d, trace := tr, promises := ps }
      = { value := s, disabled := decide (trim s = []), trace := tr, promises := ps } := by
  refine ⟨?_, trim_ne_nil_iff s, rfl⟩
  simp [updateButtonState]

/-- C2: when the trimmed text is empty, `sendQuery` has no effect: the trace
is unchanged (no `window.open`, no `fetch`, no `crypto.randomUUID`), and so are
the text and the button; the same holds for a click and for an Enter key press,
which both go through `sendQuery`. -/
theorem C2_sendQuery_empty_no_effect (w : World) (g : JSString)
    (h : trim w.value = []) :
    (sendQuery g w).trace = w.trace ∧
    countOpens (sendQuery g w).trace = countOpens w.trace ∧
    countFetches (sendQuery g w).trace = countFetches w.trace ∧
    countUUIDs (sendQuery g w).trace = countUUIDs w.trace ∧
    (sendQuery g w).value = w.value ∧
    (sendQuery g w).disabled = w.disabled ∧
    (step w (Event.click g)).trace = w.trace ∧
    (step w (Event.keydown (lit "Enter") false g)).trace = w.trace := by
  have hs := sendQuery_of_empty g w h
  have hk : (step w (Event.keydown (lit "Enter") false g)) = sendQuery g w := by
    simp [step, onKeydown]
  refine ⟨by rw [hs], by rw [hs], by rw [hs], by rw [hs], by rw [hs], by rw [hs], ?_, ?_⟩
  · show (sendQuery g w).trace = w.trace
    rw [hs]
  · rw [hk, hs]

/-- C2 at a string of two spaces and at the empty string, on a freshly loaded
page: the button is disabled and the trace stays empty. -/
theorem C2_sendQuery_empty_no_effect_witness :
    (trim (load (lit "  ") false).value = [] ∧
      (load (lit "  ") false).disabled = true ∧
      (sendQuery sampleGuid (load (lit "  ") false)).trace = [] ∧
      (step (load (lit "  ") false) (Event.keydown (lit "Enter") false sampleGuid)).trace
        = []) ∧
    (trim (load (lit "") false).value = [] ∧
      (sendQuery sampleGuid (load (lit "") false)).trace = []) :=
  ⟨⟨by decide, by decide,
    (C2_sendQuery_empty_no_effect (load (lit "  ") false) sampleGuid (by decide)).1,
    (C2_sendQuery_empty_no_effect (load (lit "  ") false) sampleGuid (by decide)).2.2.2.2.2.2.2⟩,
   ⟨by decide,
    (C2_sendQuery_empty_no_effect (load (lit "") false) sampleGuid (by decide)).1⟩⟩

/-- C3: with a non-empty trimmed text, one call of `sendQuery` adds to the
trace exactly one `crypto.randomUUID`, then one `window.open`, then one `fetch`
whose method is POST; the tab URL is `https://deepwiki.com/search/_` followed by
the identifier, the `query_id` of the request object is `_` followed by the
identifier, and stripping the leading underscore of `query_id` gives what trails
the tab URL. -/
theorem C3_sendQuery_one_tab_one_post (w : World) (g : JSString)
    (h : trim w.value ≠ []) :
    ∃ init : FetchInit,
      (sendQuery g w).trace = w.trace ++ [
        Effect.randomUUID g,
        Effect.windowOpen (lit "https://deepwiki.com/search/_" ++ g) (lit "_blank"),
        Effect.fetch (lit "https://corsproxy.io/?url=https://api.devin.ai/ada/query") init] ∧
      init.method = lit "POST" ∧
      init.body = JSONstringify (requestBody (trim w.value) g) ∧
      (requestBody (trim w.value) g).getProp (lit "query_id")
        = some (JSValue.str (lit "_" ++ g)) ∧
      (lit "_" ++ g).drop 1 = g ∧
      (lit "https://deepwiki.com/search/_" ++ g).drop
        (lit "https://deepwiki.com/search/_").length = g ∧
      countOpens (sendQuery g w).trace = countOpens w.trace + 1 ∧
      countFetches (sendQuery g w).trace = countFetches w.trace + 1 ∧
      countUUIDs (sendQuery g w).trace = countUUIDs w.trace + 1 := by
  refine ⟨_, by rw [sendQuery_of_nonempty g w h], rfl, rfl, rfl, rfl, rfl, ?_, ?_, ?_⟩
  · rw [sendQuery_of_nonempty g w h]
    simp [countOpens, List.countP_cons]
  · rw [sendQuery_of_nonempty g w h]
    simp [countFetches, List.countP_cons]
  · rw [sendQuery_of_nonempty g w h]
    simp [countUUIDs, List.countP_cons]

/-- C3 on a freshly loaded page holding `What is reincarnation?`: one tab, one
request, one identifier. -/
theorem C3_sendQuery_one_tab_one_post_witness :
    trim (load (lit "What is reincarnation?") true).value ≠ [] ∧
    countOpens (sendQuery sampleGuid (load (lit "What is reincarnation?") true)).trace = 1 ∧
    countFetches (sendQuery sampleGuid (load (lit "What is reincarnation?") true)).trace = 1 :=
  match C3_sendQuery_one_tab_one_post (load (lit "What is reincarnation?") true) sampleGuid
      (by decide) with
  | ⟨_, _, _, _, _, _, _, ho, hf, _⟩ => ⟨by decide, ho, hf⟩

/-- C4: with a non-empty trimmed text `t`, the request passed to `fetch` is the
serialised request object, whose `user_query` is the fixed wrapper followed by
`t`; it is the trimmed text that is used, not the raw one, so a page whose text
has the same trimmed form sends the same request, and a request body with the
same identifier is the same only for the same trimmed text. -/
theorem C4_user_query_wraps_trimmed_text (w : World) (g : JSString)
    (h : trim w.value ≠ []) :
    (∃ init : FetchInit,
      (sendQuery g w).trace.getLast? = some (Effect.fetch queryEndpoint init) ∧
      init.body = JSONstringify (requestBody (trim w.value) g)) ∧
    (requestBody (trim w.value) g).getProp (lit "user_query")
      = some (JSValue.str
          (lit "<relevant_context>このリポジトリ内のスピリチュアリズム関連文献を参照してユーザーの質問に回答してください</relevant_context>"
            ++ trim w.value)) ∧
    (trim w.value ≠ w.value →
      lit "<relevant_context>このリポジトリ内のスピリチュアリズム関連文献を参照してユーザーの質問に回答してください</relevant_context>"
          ++ trim w.value
        ≠ lit "<relevant_context>このリポジトリ内のスピリチュアリズム関連文献を参照してユーザーの質問に回答してください</relevant_context>"
          ++ w.value) ∧
    (∀ w2 : World, trim w2.value = trim w.value →
      (sendQuery g w2).trace.getLast? = (sendQuery g w).trace.getLast?) ∧
    (∀ w2 : World, JSONstringify (requestBody (trim w2.value) g)
        = JSONstringify (requestBody (trim w.value) g) → trim w2.value = trim w.value) := by
  refine ⟨⟨_, sendQuery_getLast g w h, rfl⟩, rfl, ?_, ?_,
    fun w2 h2 => (stringify_requestBody_inj _ _ _ _ h2).1⟩
  · intro hne heq
    exact hne (List.append_cancel_left heq)
  · intro w2 h2
    have h2ne : trim w2.value ≠ [] := by rw [h2]; exact h
    rw [sendQuery_of_nonempty g w h, sendQuery_of_nonempty g w2 h2ne, h2]
    simp

/-- C4 at the input `What is reincarnation?`, and at the same text typed with a
leading space and a trailing line break. -/
theorem C4_user_query_wraps_trimmed_text_witness :
    trim (load (lit "What is reincarnation?") true).value ≠ [] ∧
    (requestBody (trim (load (lit "What is reincarnation?") true).value) sampleGuid).getProp
        (lit "user_query")
      = some (JSValue.str (lit "<relevant_context>このリポジトリ内のスピリチュアリズム関連文献を参照してユーザーの質問に回答してください</relevant_context>What is reincarnation?")) ∧
    (sendQuery sampleGuid (load (lit " What is reincarnation?\n") true)).trace.getLast?
      = (sendQuery sampleGuid (load (lit "What is reincarnation?") true)).trace.getLast? :=
  ⟨by decide,
   (C4_user_query_wraps_trimmed_text (load (lit "What is reincarnation?") true) sampleGuid
      (by decide)).2.1,
   (C4_user_query_wraps_trimmed_text (load (lit "What is reincarnation?") true) sampleGuid
      (by decide)).2.2.2.1 (load (lit " What is reincarnation?\n") true) (by decide)⟩

/-- C5: in the request object of every submission, whatever the text and the
identifier, `repo_names` is the one-element array holding
`FoxRefire/spiritualism-md-scraped`, `keywords` is the empty array,
`additional_context` is the empty string, and `use_notes` and
`generate_summary` are `false`; this object, serialised, is the body of the
request that `sendQuery` passes to `fetch`. -/
theorem C5_fixed_fields (w : World) (g : JSString) (h : trim w.value ≠ []) :
    (∃ init : FetchInit,
      (sendQuery g w).trace.getLast? = some (Effect.fetch queryEndpoint init) ∧
      init.body = JSONstringify (requestBody (trim w.value) g)) ∧
    (requestBody (trim w.value) g).getProp (lit "repo_names")
      = some (JSValue.arr [JSValue.str (lit "FoxRefire/spiritualism-md-scraped")]) ∧
    (requestBody (trim w.value) g).getProp (lit "keywords") = some (JSValue.arr []) ∧
    (requestBody (trim w.value) g).getProp (lit "additional_context")
      = some (JSValue.str []) ∧
    (requestBody (trim w.value) g).getProp (lit "use_notes") = some (JSValue.bool false) ∧
    (requestBody (trim w.value) g).getProp (lit "generate_summary")
      = some (JSValue.bool false) := by
  exact ⟨⟨_, sendQuery_getLast g w h, rfl⟩, rfl, rfl, rfl, rfl, rfl⟩

/-- C5 on a freshly loaded page holding `What is reincarnation?`. -/
theorem C5_fixed_fields_witness :
    trim (load (lit "What is reincarnation?") false).value ≠ [] ∧
    (requestBody (trim (load (lit "What is reincarnation?") false).value) otherGuid).getProp
        (lit "repo_names")
      = some (JSValue.arr [JSValue.str (lit "FoxRefire/spiritualism-md-scraped")]) ∧
    (requestBody (trim (load (lit "What is reincarnation?") false).value) otherGuid).getProp
        (lit "keywords") = some (JSValue.arr []) :=
  ⟨by decide,
   (C5_fixed_fields (load (lit "What is reincarnation?") false) otherGuid (by decide)).2.1,
   (C5_fixed_fields (load (lit "What is reincarnation?") false) otherGuid (by decide)).2.2.1⟩

/-- C6: the `keydown` listener calls `sendQuery` if and only if the key is
`Enter` and Shift is not held (each call of `sendQuery` adds one promise); in
that case it cancels the default action and leaves the page exactly as a click
with the same identifier does.  Otherwise the event and the page are unchanged:
Shift+Enter adds nothing to the trace and does not cancel the default action. -/
theorem C6_keydown_submits_iff (w : World) (e : KeyboardEvent) (g : JSString) :
    onKeydown e g w
      = (if e.key = lit "Enter" ∧ e.shiftKey = false
          then ({ e with defaultPrevented := true }, onClick g w) else (e, w)) ∧
    ((onKeydown e g w).2.promises.length = w.promises.length + 1
      ↔ (e.key = lit "Enter" ∧ e.shiftKey = false)) ∧
    step w (Event.keydown (lit "Enter") false g) = step w (Event.click g) ∧
    step w (Event.keydown (lit "Enter") true g) = w ∧
    (onKeydown { key := lit "Enter", shiftKey := true, defaultPrevented := false } g w).1.defaultPrevented
      = false ∧
    (onKeydown { key := lit "Enter", shiftKey := false, defaultPrevented := false } g w).1.defaultPrevented
      = true := by
  have hlen : (sendQuery g w).promises.length = w.promises.length + 1 := by
    by_cases h : trim w.value = []
    · rw [sendQuery_of_empty g w h]; simp
    · rw [sendQuery_of_nonempty g w h]; simp
  refine ⟨?_, ?_, ?_, ?_, ?_, ?_⟩
  · by_cases hk : e.key = lit "Enter" <;> cases hs : e.shiftKey <;>
      simp [onKeydown, onClick, hk, hs]
  · by_cases hk : e.key = lit "Enter" <;> cases hs : e.shiftKey <;>
      simp [onKeydown, hk, hs, hlen]
  · simp [step, onKeydown, onClick]
  · simp [step, onKeydown]
  · simp [onKeydown]
  · simp [onKeydown]

/-- C7: with a non-empty trimmed text, the one `fetch` of a submission goes to
`https://corsproxy.io/?url=https://api.devin.ai/ada/query` with method POST,
header `content-type: application/json`, credentials `omit`, and as body the
serialised request object; that object has exactly the eight keys `engine_id`,
`user_query`, `keywords`, `repo_names`, `additional_context`, `query_id`,
`use_notes`, `generate_summary`, and its serialisation is the JSON text spelled
out below, in which only the quoted `user_query` and `query_id` vary. -/
theorem C7_request_shape (w : World) (g : JSString) (h : trim w.value ≠ []) :
    (sendQuery g w).trace.getLast?
      = some (Effect.fetch (lit "https://corsproxy.io/?url=https://api.devin.ai/ada/query")
          { credentials := lit "omit",
            headers := [(lit "content-type", lit "application/json")],
            body := JSONstringify (requestBody (trim w.value) g),
            method := lit "POST",
            mode := lit "cors" }) ∧
    countFetches (sendQuery g w).trace = countFetches w.trace + 1 ∧
    (requestBody (trim w.value) g).keys
      = [lit "engine_id", lit "user_query", lit "keywords", lit "repo_names",
          lit "additional_context", lit "query_id", lit "use_notes", lit "generate_summary"] ∧
    JSONstringify (requestBody (trim w.value) g)
      = lit "\x7b\"engine_id\":\"multihop\",\"user_query\":"
        ++ quoteJSONString
            (lit "<relevant_context>このリポジトリ内のスピリチュアリズム関連文献を参照してユーザーの質問に回答してください</relevant_context>"
              ++ trim w.value)
        ++ lit ",\"keywords\":[],\"repo_names\":[\"FoxRefire/spiritualism-md-scraped\"],\"additional_context\":\"\",\"query_id\":"
        ++ quoteJSONString (lit "_" ++ g)
        ++ lit ",\"use_notes\":false,\"generate_summary\":false\x7d" := by
  refine ⟨sendQuery_getLast g w h, ?_, rfl, stringify_requestBody (trim w.value) g⟩
  rw [sendQuery_of_nonempty g w h]
  simp [countFetches, List.countP_cons]

/-- C7 on a freshly loaded page holding `What is reincarnation?`: the complete
body of the request. -/
theorem C7_request_shape_witness :
    trim (load (lit "What is reincarnation?") true).value ≠ [] ∧
    JSONstringify (requestBody (trim (load (lit "What is reincarnation?") true).value) sampleGuid)
      = lit "\x7b\"engine_id\":\"multihop\",\"user_query\":\"<relevant_context>このリポジトリ内のスピリチュアリズム関連文献を参照してユーザーの質問に回答してください</relevant_context>What is reincarnation?\",\"keywords\":[],\"repo_names\":[\"FoxRefire/spiritualism-md-scraped\"],\"additional_context\":\"\",\"query_id\":\"_3b241101-e2bb-4255-8caf-4136c566a962\",\"use_notes\":false,\"generate_summary\":false\x7d" :=
  ⟨by decide,
   (C7_request_shape (load (lit "What is reincarnation?") true) sampleGuid
      (by decide)).2.2.2.trans (by decide)⟩

/-- C8: a valid submission, then any number of requests ending and text edits,
then a second valid submission: the trace gains the three effects of the first
submission followed by the three effects of the second, each with its own
identifier, so two tabs and two requests, also when the text is the same both
times.  Different identifiers give different `query_id`s, different tab URLs
and different request bodies, and what the second submission adds is what it adds on a fresh page
holding the same text. -/
theorem C8_two_submissions_independent (w : World) (g1 g2 : JSString) (mid : List Event)
    (h1 : trim w.value ≠ [])
    (hmid : ∀ e ∈ mid, (∃ i o, e = Event.settle i o) ∨ (∃ v, e = Event.input v))
    (h2 : trim (run (step w (Event.click g1)) mid).value ≠ []) :
    (step (run (step w (Event.click g1)) mid) (Event.click g2)).trace
      = w.trace
        ++ [Effect.randomUUID g1,
            Effect.windowOpen (lit "https://deepwiki.com/search/_" ++ g1) (lit "_blank"),
            Effect.fetch (lit "https://corsproxy.io/?url=https://api.devin.ai/ada/query")
              { credentials := lit "omit",
                headers := [(lit "content-type", lit "application/json")],
                body := JSONstringify (requestBody (trim w.value) g1),
                method := lit "POST",
                mode := lit "cors" }]
        ++ [Effect.randomUUID g2,
            Effect.windowOpen (lit "https://deepwiki.com/search/_" ++ g2) (lit "_blank"),
            Effect.fetch (lit "https://corsproxy.io/?url=https://api.devin.ai/ada/query")
              { credentials := lit "omit",
                headers := [(lit "content-type", lit "application/json")],
                body := JSONstringify
                  (requestBody (trim (run (step w (Event.click g1)) mid).value) g2),
                method := lit "POST",
                mode := lit "cors" }] ∧
    countOpens (step (run (step w (Event.click g1)) mid) (Event.click g2)).trace
      = countOpens w.trace + 2 ∧
    countFetches (step (run (step w (Event.click g1)) mid) (Event.click g2)).trace
      = countFetches w.trace + 2 ∧
    (g1 ≠ g2 →
      (requestBody (trim w.value) g1).getProp (lit "query_id")
        ≠ (requestBody (trim (run (step w (Event.click g1)) mid).value) g2).getProp
            (lit "query_id") ∧
      lit "_" ++ g1 ≠ lit "_" ++ g2 ∧
      lit "https://deepwiki.com/search/_" ++ g1 ≠ lit "https://deepwiki.com/search/_" ++ g2 ∧
      JSONstringify (requestBody (trim w.value) g1)
        ≠ JSONstringify (requestBody (trim (run (step w (Event.click g1)) mid).value) g2)) ∧
    (step (run (step w (Event.click g1)) mid) (Event.click g2)).trace
      = (run (step w (Event.click g1)) mid).trace
        ++ (sendQuery g2
            { value := (run (step w (Event.click g1)) mid).value, disabled := false,
              trace := [], promises := [] }).trace := by
  have hw1 : (step w (Event.click g1)) = sendQuery g1 w := rfl
  have hmidtr : (run (step w (Event.click g1)) mid).trace = (sendQuery g1 w).trace := by
    rw [run_trace_of_no_submit mid _ hmid, hw1]
  have h3 : (step (run (step w (Event.click g1)) mid) (Event.click g2))
      = sendQuery g2 (run (step w (Event.click g1)) mid) := rfl
  have htr : (step (run (step w (Event.click g1)) mid) (Event.click g2)).trace
      = (run (step w (Event.click g1)) mid).trace ++ [Effect.randomUUID g2,
            Effect.windowOpen (lit "https://deepwiki.com/search/_" ++ g2) (lit "_blank"),
            Effect.fetch (lit "https://corsproxy.io/?url=https://api.devin.ai/ada/query")
              { credentials := lit "omit",
                headers := [(lit "content-type", lit "application/json")],
                body := JSONstringify
                  (requestBody (trim (run (step w (Event.click g1)) mid).value) g2),
                method := lit "POST",
                mode := lit "cors" }] := by
    rw [h3, sendQuery_of_nonempty g2 _ h2]
  have htr1 : (sendQuery g1 w).trace = w.trace ++ [Effect.randomUUID g1,
            Effect.windowOpen (lit "https://deepwiki.com/search/_" ++ g1) (lit "_blank"),
            Effect.fetch (lit "https://corsproxy.io/?url=https://api.devin.ai/ada/query")
              { credentials := lit "omit",
                headers := [(lit "content-type", lit "application/json")],
                body := JSONstringify (requestBody (trim w.value) g1),
                method := lit "POST",
                mode := lit "cors" }] := by
    rw [sendQuery_of_nonempty g1 w h1]
  refine ⟨?_, ?_, ?_, ?_, ?_⟩
  · rw [htr, hmidtr, htr1]
  · rw [htr, hmidtr, htr1]
    simp [countOpens, List.countP_cons, List.countP_append]
  · rw [htr, hmidtr, htr1]
    simp [countFetches, List.countP_cons, List.countP_append]
  · intro hne
    have hu : lit "_" ++ g1 ≠ lit "_" ++ g2 := fun heq => hne (List.append_cancel_left heq)
    refine ⟨?_, hu, fun heq => hne (List.append_cancel_left heq),
      fun heq => hne (stringify_requestBody_inj _ _ _ _ heq).2⟩
    intro heq
    have heq2 : some (JSValue.str (lit "_" ++ g1)) = some (JSValue.str (lit "_" ++ g2)) := heq
    exact hu (JSValue.str.inj (Option.some.inj heq2))
  · rw [htr]
    have hfresh : trim (World.mk (run (step w (Event.click g1)) mid).value false [] []).value
        ≠ [] := h2
    rw [sendQuery_of_nonempty g2 _ hfresh]
    rfl

/-- C8 on a freshly loaded page holding `What is reincarnation?`, submitted
twice with the same text, the first request having ended with status 500 in
between: two tabs and two requests. -/
theorem C8_two_submissions_independent_witness :
    trim (load (lit "What is reincarnation?") true).value ≠ [] ∧
    countOpens (step (run (step (load (lit "What is reincarnation?") true)
        (Event.click sampleGuid)) [Event.settle 0 (FetchOutcome.response 500 [])])
        (Event.click otherGuid)).trace = 2 ∧
    countFetches (step (run (step (load (lit "What is reincarnation?") true)
        (Event.click sampleGuid)) [Event.settle 0 (FetchOutcome.response 500 [])])
        (Event.click otherGuid)).trace = 2 :=
  ⟨by decide,
   (C8_two_submissions_independent (load (lit "What is reincarnation?") true)
      sampleGuid otherGuid [Event.settle 0 (FetchOutcome.response 500 [])]
      (by decide) (by simp) (by decide)).2.1,
   (C8_two_submissions_independent (load (lit "What is reincarnation?") true)
      sampleGuid otherGuid [Event.settle 0 (FetchOutcome.response 500 [])]
      (by decide) (by simp) (by decide)).2.2.1⟩

/-- C9: in a valid submission `sendQuery` calls `window.open` and then `fetch`
before it suspends, so both are in the trace, in that order, before the request
has any outcome; whatever the outcome, resuming the call adds nothing to the
trace and leaves the text and the button as they were: only the promise of the
call records how the request ended. -/
theorem C9_tab_opens_before_request (w : World) (g : JSString) (o : FetchOutcome)
    (h : trim w.value ≠ []) :
    (sendQuery g w).trace
      = w.trace
        ++ [Effect.randomUUID g,
            Effect.windowOpen (lit "https://deepwiki.com/search/_" ++ g) (lit "_blank"),
            Effect.fetch (lit "https://corsproxy.io/?url=https://api.devin.ai/ada/query")
              { credentials := lit "omit",
                headers := [(lit "content-type", lit "application/json")],
                body := JSONstringify (requestBody (trim w.value) g),
                method := lit "POST",
                mode := lit "cors" }] ∧
    (sendQuery g w).trace.get? (w.trace.length + 1)
      = some (Effect.windowOpen (lit "https://deepwiki.com/search/_" ++ g) (lit "_blank")) ∧
    (sendQuery g w).trace.get? (w.trace.length + 2)
      = some (Effect.fetch (lit "https://corsproxy.io/?url=https://api.devin.ai/ada/query")
          { credentials := lit "omit",
            headers := [(lit "content-type", lit "application/json")],
            body := JSONstringify (requestBody (trim w.value) g),
            method := lit "POST",
            mode := lit "cors" }) ∧
    (sendQuery g w).promises = w.promises ++ [PromiseState.pending] ∧
    (settle w.promises.length o (sendQuery g w)).trace = (sendQuery g w).trace ∧
    (settle w.promises.length o (sendQuery g w)).value = w.value ∧
    (settle w.promises.length o (sendQuery g w)).disabled = w.disabled ∧
    (settle w.promises.length o (sendQuery g w)).promises
      = w.promises ++ [resumeSendQuery o] := by
  have hs := sendQuery_of_nonempty g w h
  refine ⟨by rw [hs], ?_, ?_, by rw [hs], settle_trace _ _ _, ?_, ?_, ?_⟩
  · rw [hs]
    exact get?_append_length_add w.trace _ 1
  · rw [hs]
    exact get?_append_length_add w.trace _ 2
  · rw [settle_value, sendQuery_value]
  · rw [settle_disabled, sendQuery_disabled]
  · rw [hs]
    simp [settle]

/-- C9 on a freshly loaded page holding `What is reincarnation?`: the trace is
the same after a response with status 200, after a response with status 500
and after a network failure, while the promise of the call differs. -/
theorem C9_tab_opens_before_request_witness :
    trim (load (lit "What is reincarnation?") true).value ≠ [] ∧
    (settle 0 (FetchOutcome.response 500 (lit "<html>"))
        (sendQuery sampleGuid (load (lit "What is reincarnation?") true))).trace
      = (sendQuery sampleGuid (load (lit "What is reincarnation?") true)).trace ∧
    (settle 0 FetchOutcome.networkError
        (sendQuery sampleGuid (load (lit "What is reincarnation?") true))).trace
      = (sendQuery sampleGuid (load (lit "What is reincarnation?") true)).trace ∧
    (settle 0 FetchOutcome.networkError
        (sendQuery sampleGuid (load (lit "What is reincarnation?") true))).promises
      = [PromiseState.rejected] ∧
    (settle 0 (FetchOutcome.response 200 (lit "ok"))
        (sendQuery sampleGuid (load (lit "What is reincarnation?") true))).promises
      = [PromiseState.fulfilled] :=
  ⟨by decide,
   (C9_tab_opens_before_request (load (lit "What is reincarnation?") true) sampleGuid
      (FetchOutcome.response 500 (lit "<html>")) (by decide)).2.2.2.2.1,
   (C9_tab_opens_before_request (load (lit "What is reincarnation?") true) sampleGuid
      FetchOutcome.networkError (by decide)).2.2.2.2.1,
   (C9_tab_opens_before_request (load (lit "What is reincarnation?") true) sampleGuid
      FetchOutcome.networkError (by decide)).2.2.2.2.2.2.2,
   (C9_tab_opens_before_request (load (lit "What is reincarnation?") true) sampleGuid
      (FetchOutcome.response 200 (lit "ok")) (by decide)).2.2.2.2.2.2.2⟩

/-- C10: in every state reached from load, for any pre-filled text and any
markup flag, by any sequence of events (text edits, clicks, key presses of any
key, requests ending), the button is disabled exactly when the trimmed text is
empty and enabled otherwise, and it is disabled exactly when `sendQuery` would
add nothing to the trace; at load the flag already agrees with the pre-filled
text. -/
theorem C10_button_tracks_text (prefilled : JSString) (markupDisabled : Bool)
    (events : List Event) (g : JSString) :
    ((run (load prefilled markupDisabled) events).disabled = true
      ↔ trim (run (load prefilled markupDisabled) events).value = []) ∧
    ((run (load prefilled markupDisabled) events).disabled = false
      ↔ trim (run (load prefilled markupDisabled) events).value ≠ []) ∧
    ((run (load prefilled markupDisabled) events).disabled = true
      ↔ (sendQuery g (run (load prefilled markupDisabled) events)).trace
          = (run (load prefilled markupDisabled) events).trace) ∧
    ((load prefilled markupDisabled).disabled = true ↔ trim prefilled = []) := by
  have hinv := run_disabled_inv events (load prefilled markupDisabled) rfl
  have hload : (load prefilled markupDisabled).disabled = decide (trim prefilled = []) := rfl
  refine ⟨by rw [hinv]; simp, by rw [hinv]; simp, ?_, by rw [hload]; simp⟩
  rw [hinv]
  by_cases hE : trim (run (load prefilled markupDisabled) events).value = []
  · rw [sendQuery_of_empty g _ hE]
    simp [hE]
  · rw [sendQuery_of_nonempty g _ hE]
    simp [hE]

end QuerySubmitter
